import Mathlib

/-
Shallow embedding of the ingestion pipeline of the trading-dashboard
repository: the WebSocket feed connector (backend/services/websocket_ingester.py),
the Redis stream client (backend/core/redis_client.py), the batch processor
(backend/services/batch_processor.py) and the bulk-insert entry point of
backend/core/database.py.

Modelling conventions:
  - A Python call that may raise is embedded as a value of `PyResult`:
    `.ok a` is a normal return, `.exc` is a raised exception.
  - External effects (the Redis backend, the database) are passed in as
    explicit parameters describing their outcome, so every definition is a
    pure, executable function of the inputs of the code and the declared
    behaviour of the environment.
  - Python floats are modelled as rationals; the claims under study concern
    which field is parsed into which slot and how failures are handled,
    not rounding.  `datetime` instants are rationals (seconds since epoch);
    the ISO-8601 round trip through the Redis stream is the identity on
    the instant.
-/

namespace Trading

/-- Outcome of a Python call: a normal return or a raised exception. -/
inductive PyResult (α : Type) where
  | ok : α → PyResult α
  | exc : PyResult α
deriving DecidableEq

/-- A normalized trade event, as produced by
`WebSocketIngestor.normalize_tick` (websocket_ingester.py lines 87-97):
symbol (lowercased), instant (seconds since epoch), price and size. -/
structure Tick where
  symbol : String
  time : ℚ
  price : ℚ
  size : ℚ
deriving DecidableEq

/-- Value of a digit list read in base 10 (helper for the decimal parser). -/
def digitsVal (l : List Char) : Nat :=
  l.foldl (fun a c => 10 * a + (c.toNat - 48)) 0

/-- An unsigned decimal literal: digits, optionally split by one dot.
`none` models Python `float` raising `ValueError`. -/
def parseUnsigned (body : List Char) : Option ℚ :=
  match body.splitOn '.' with
  | [ip] =>
      if ip.all Char.isDigit && !ip.isEmpty then some (digitsVal ip) else none
  | [ip, fp] =>
      if ip.all Char.isDigit && fp.all Char.isDigit && !(ip.isEmpty && fp.isEmpty) then
        some ((digitsVal ip : ℚ) + (digitsVal fp : ℚ) / (10 : ℚ) ^ fp.length)
      else none
  | _ => none

/-- Model of Python `float(s)` on the decimal strings carried by the feed:
optional sign followed by an unsigned decimal literal.  `none` models a
raised `ValueError` (parse failure). -/
def parseDecimal (s : String) : Option ℚ :=
  match s.toList with
  | [] => none
  | '-' :: rest => (parseUnsigned rest).map (fun q => -q)
  | '+' :: rest => parseUnsigned rest
  | l => parseUnsigned l

/-- Configured batch size threshold (config.py, `BATCH_SIZE`, default 500). -/
def BATCH_SIZE : Nat := 500

/-- Configured flush timeout in seconds (config.py, `BATCH_TIMEOUT_SECONDS`,
default 1.0). -/
def BATCH_TIMEOUT_SECONDS : ℚ := 1

/-- Fixed reconnect backoff in seconds (`await asyncio.sleep(5)` in
websocket_ingester.py line 66). -/
def RECONNECT_BACKOFF_SECONDS : ℚ := 5

/-- A parsed JSON frame from the feed, with the fields the ingester reads.
Each field is optional: `none` models the key being absent, so that the
corresponding Python subscript raises `KeyError`. -/
structure Frame where
  e : Option String
  s : Option String
  p : Option String
  q : Option String
  T : Option Int
deriving DecidableEq

/-- An inbound WebSocket message: either unparseable JSON (`json.loads`
raises) or a parsed frame. -/
inductive Msg where
  | malformed : Msg
  | frame : Frame → Msg
deriving DecidableEq

/-- ASCII lowercase of one character (model of Python `str.lower` on the
ASCII symbol names the exchange uses). -/
def lower_char (c : Char) : Char :=
  if 'A' ≤ c && c ≤ 'Z' then Char.ofNat (c.toNat + 32) else c

/-- ASCII lowercase of a string (model of Python `str.lower`). -/
def str_lower (s : String) : String :=
  ⟨s.data.map lower_char⟩

/-- `WebSocketIngestor.normalize_tick` (websocket_ingester.py lines 87-97):
symbol lowercased, the exchange timestamp field `T` (milliseconds since
epoch) divided by 1000 into an instant, price `p` and size `q` parsed as
floats.  `none` models any exception raised inside the method (missing key
or unparseable number), which the caller catches. -/
def normalize_tick (data : Frame) : Option Tick :=
  match data.s, data.p, data.q, data.T with
  | some s, some p, some q, some T =>
      match parseDecimal p, parseDecimal q with
      | some pv, some qv =>
          some { symbol := str_lower s, time := (T : ℚ) / 1000, price := pv, size := qv }
      | _, _ => none
  | _, _, _, _ => none

/-- The statistics dictionary of the ingester (websocket_ingester.py lines 21-25). -/
structure IngestStats where
  ticks_received : Nat
  ticks_published : Nat
  errors : Nat
deriving DecidableEq

/-- `publish_tick` (redis_client.py lines 55-71): appends the tick to the
Redis stream.  `pubOk` is the backend outcome of `xadd`.  The internal
`try/except` catches every exception, logs the failure and returns `None`,
so the function never raises.  Result: (entry appended to the log, whether
a failure was logged). -/
def publish_tick (pubOk : Bool) (t : Tick) : Option Tick × Bool :=
  if pubOk then (some t, false) else (none, true)

/-- Result of one `WebSocketIngestor.process_message` call: the updated
stats, the tick handed to `publish_tick` (the Stream Publisher), the entry
actually appended to the log, and whether a publish failure was logged. -/
structure PMOut where
  stats : IngestStats
  forwarded : Option Tick
  appended : Option Tick
  publishFailureLogged : Bool
deriving DecidableEq

/-- `WebSocketIngestor.process_message` (websocket_ingester.py lines 69-85):
parse the JSON, ignore frames whose event type is not `"trade"`, normalize
accepted frames, count the tick, forward it via `publish_tick`, and count
it as published.  The outer `try/except` turns any exception (malformed
JSON, normalization failure) into an error-counter increment; nothing
propagates, so the result type is a plain value, not a `PyResult`. -/
def process_message (stats : IngestStats) (msg : Msg) (pubOk : Bool) : PMOut :=
  match msg with
  | .malformed =>
      ⟨{ stats with errors := stats.errors + 1 }, none, none, false⟩
  | .frame data =>
      if data.e = some "trade" then
        match normalize_tick data with
        | none =>
            ⟨{ stats with errors := stats.errors + 1 }, none, none, false⟩
        | some tick =>
            let pub := publish_tick pubOk tick
            ⟨{ stats with
                ticks_received := stats.ticks_received + 1,
                ticks_published := stats.ticks_published + 1 },
              some tick, pub.1, pub.2⟩
      else ⟨stats, none, none, false⟩

/-- Folding `process_message` over a message sequence: the per-message
receive loop of `ingest_symbol`.  Each message is paired with the backend
outcome of its publish attempt. -/
def run_messages (stats : IngestStats) : List (Msg × Bool) → IngestStats
  | [] => stats
  | (m, p) :: rest => run_messages (process_message stats m p).stats rest

/-- One entry read from the Redis stream by `consume_ticks`
(redis_client.py lines 95-122): the stream id plus the flat field map
written by `publish_tick`.  The string-encoded price and size round-trip
exactly in the model (they were produced by `str` on the published value),
so the fields are carried as rationals. -/
structure StreamMsg where
  id : String
  symbol : String
  time : ℚ
  price : ℚ
  size : ℚ
deriving DecidableEq

/-- The tick dictionary `consume_ticks` rebuilds from one stream entry. -/
def stream_msg_tick (m : StreamMsg) : Tick :=
  ⟨m.symbol, m.time, m.price, m.size⟩

/-- `consume_ticks` (redis_client.py lines 95-122).  `readRes` is the
outcome of the backend `xreadgroup` call.  The whole body is wrapped in a
`try/except` whose handler returns `([], [])`, so the function always
returns normally: the result is a `PyResult` that is `.ok` by the shape of
the code.  On a successful read it returns the rebuilt ticks and their
stream ids, in order. -/
def consume_ticks (readRes : PyResult (List StreamMsg)) :
    PyResult (List Tick × List String) :=
  match readRes with
  | .ok msgs => .ok (msgs.map stream_msg_tick, msgs.map StreamMsg.id)
  | .exc => .ok ([], [])

/-- The `BatchProcessor` state (batch_processor.py lines 16-25): the shared
buffer, the running flag, the stats counters and the last-flush timestamp. -/
structure BPState where
  buffer : List Tick
  running : Bool
  batches_processed : Nat
  ticks_inserted : Nat
  errors : Nat
  last_flush : ℚ
deriving DecidableEq

/-- `bulk_insert_ticks` (database.py lines 122-145).  `dbOk` is the outcome
of executing the INSERT against the database.  The internal `try/except`
catches the failure, logs it and rolls back WITHOUT re-raising, so the call
returns normally in both cases.  Result: (how the call returns, the rows
durably inserted). -/
def bulk_insert_ticks (dbOk : Bool) (ticks : List Tick) :
    PyResult Unit × List Tick :=
  if ticks.isEmpty then (.ok (), [])
  else if dbOk then (.ok (), ticks)
  else (.ok (), [])

/-- `BatchProcessor.flush_buffer` (batch_processor.py lines 80-104), with
the result of the `bulk_insert_ticks` call abstracted as `insertRes`: copy
and clear the buffer, call the insert; if the call returns, bump
`batches_processed` and `ticks_inserted` and set `last_flush`; if the call
raises, bump the error counter and extend the (cleared) buffer with the
taken ticks, restoring it. -/
def flush_buffer_core (st : BPState) (now : ℚ) (insertRes : PyResult Unit) :
    BPState :=
  if st.buffer.isEmpty then st
  else
    match insertRes with
    | .ok _ =>
        { st with
          buffer := [],
          batches_processed := st.batches_processed + 1,
          ticks_inserted := st.ticks_inserted + st.buffer.length,
          last_flush := now }
    | .exc => { st with errors := st.errors + 1 }

/-- `BatchProcessor.flush_buffer` composed with the real
`bulk_insert_ticks` it calls.  Result: (new state, rows durably inserted
by this flush). -/
def flush_buffer (dbOk : Bool) (now : ℚ) (st : BPState) :
    BPState × List Tick :=
  (flush_buffer_core st now (bulk_insert_ticks dbOk st.buffer).1,
   (bulk_insert_ticks dbOk st.buffer).2)

/-- Observable actions of one consume-loop iteration, in program order. -/
inductive BPEvent where
  | append : List Tick → BPEvent
  | ack : List String → BPEvent
  | flushCall : BPEvent
deriving DecidableEq

/-- One iteration of `BatchProcessor.consume_loop` (batch_processor.py
lines 40-68), modelled as an atomic step; the event list records the order
of its operations.  It calls `consume_ticks`; if ticks were returned it
extends the buffer, acknowledges the consumed ids
(`acknowledge_messages`, redis_client.py lines 125-137, which swallows its
own errors), and, only after that, flushes when the buffer has reached
`BATCH_SIZE`.  The `.exc` branch is the `except` handler of the loop
(error-counter increment); `consume_ticks` never raises, so it is
unreachable. -/
def consume_iter (st : BPState) (readRes : PyResult (List StreamMsg))
    (dbOk : Bool) (now : ℚ) : BPState × List BPEvent :=
  match consume_ticks readRes with
  | .exc => ({ st with errors := st.errors + 1 }, [])
  | .ok (ticks, ids) =>
      if ticks.isEmpty then (st, [])
      else
        let st1 := { st with buffer := st.buffer ++ ticks }
        if BATCH_SIZE ≤ st1.buffer.length then
          ((flush_buffer dbOk now st1).1,
            [BPEvent.append ticks, BPEvent.ack ids, BPEvent.flushCall])
        else
          (st1, [BPEvent.append ticks, BPEvent.ack ids])

/-- Loop guard of `consume_loop` (`while self.running`). -/
def consume_loop_guard (st : BPState) : Bool := st.running

/-- Loop guard of `flush_loop` (`while self.running`). -/
def flush_loop_guard (st : BPState) : Bool := st.running

/-- Loop guard of `report_stats` (`while self.running`). -/
def report_loop_guard (st : BPState) : Bool := st.running

/-- The flush decision of one `flush_loop` wakeup (batch_processor.py
lines 70-78): flush iff the buffer is non-empty and at least
`BATCH_TIMEOUT_SECONDS` have elapsed since `last_flush`. -/
def flush_loop_fires (st : BPState) (wake : ℚ) : Bool :=
  !st.buffer.isEmpty && decide (BATCH_TIMEOUT_SECONDS ≤ wake - st.last_flush)

/-- `BatchProcessor.stop` (batch_processor.py lines 117-122): clear the
running flag, then flush once if the buffer is non-empty.  Result:
(new state, whether the final flush was invoked). -/
def stop (dbOk : Bool) (now : ℚ) (st : BPState) : BPState × Bool :=
  let st1 := { st with running := false }
  if st1.buffer.isEmpty then (st1, false)
  else ((flush_buffer dbOk now st1).1, true)

/-- Timer wakeups are modelled at the integer multiples of the 1.0 s
timeout (the flush loop sleeps `BATCH_TIMEOUT_SECONDS` per iteration, with
processing time idealised to zero).  The flush-loop condition at wakeup
`k`, for a buffer whose (sole) pending entry arrived at time `arrival`
while the last flush happened at `lf`: the buffer is non-empty at `k` and
the timeout has elapsed since `lf`. -/
def timer_fires_at (arrival lf : ℚ) (k : ℕ) : Prop :=
  arrival ≤ (k : ℚ) ∧ lf + BATCH_TIMEOUT_SECONDS ≤ (k : ℚ)

instance (arrival lf : ℚ) (k : ℕ) : Decidable (timer_fires_at arrival lf k) :=
  inferInstanceAs (Decidable (And _ _))

/-- The first timer wakeup at which the flush-loop condition holds, for an
entry arriving at `arrival` with last flush at `lf`. -/
def first_timer_flush (arrival lf : ℚ) : ℕ :=
  max ⌈arrival⌉₊ ⌈lf + BATCH_TIMEOUT_SECONDS⌉₊

/-- How one connection attempt of `WebSocketIngestor.ingest_symbol`
(websocket_ingester.py lines 43-67) ends, as seen by the outer
`while self.running` loop:
  - `closedDuringRecv`: `ws.recv` raised `ConnectionClosed`; the inner
    handler logs and `break`s out of the receive loop;
  - `connectError`: `websockets.connect` raised;
  - `innerError`: some other exception escaped the connection context
    (e.g. `ws.ping` failing). -/
inductive AttemptOutcome where
  | closedDuringRecv : AttemptOutcome
  | connectError : AttemptOutcome
  | innerError : AttemptOutcome
deriving DecidableEq

/-- What `ingest_symbol` does between one connection attempt ending and the
next beginning: `connectError` and `innerError` reach the outer `except`
handler, which bumps the error counter and sleeps
`RECONNECT_BACKOFF_SECONDS`; `closedDuringRecv` only `break`s the inner
loop, so control falls straight back to the outer `while` with no sleep
and no counter change.  Result: (stats, delay before the next attempt). -/
def attempt_step (stats : IngestStats) (o : AttemptOutcome) :
    IngestStats × ℚ :=
  match o with
  | .closedDuringRecv => (stats, 0)
  | .connectError =>
      ({ stats with errors := stats.errors + 1 }, RECONNECT_BACKOFF_SECONDS)
  | .innerError =>
      ({ stats with errors := stats.errors + 1 }, RECONNECT_BACKOFF_SECONDS)

/-- The retry loop of `ingest_symbol` run over a script of attempt
outcomes while `running` stays true: every outcome is followed by a fresh
attempt (no retry cap).  Result: (final stats, the delay taken before each
reconnection, in order). -/
def ingest_run (stats : IngestStats) : List AttemptOutcome → IngestStats × List ℚ
  | [] => (stats, [])
  | o :: rest =>
      let s1 := attempt_step stats o
      let s2 := ingest_run s1.1 rest
      (s2.1, s1.2 :: s2.2)

/-- The `WebSocketIngestor` symbol-tracking state: the active-symbol set,
the per-symbol connection table (handles as opaque numbers) and the running
flag (websocket_ingester.py lines 18-20). -/
structure IngestorState where
  active_symbols : List String
  connections : List (String × Nat)
  running : Bool
deriving DecidableEq

/-- `WebSocketIngestor.remove_symbol` (websocket_ingester.py lines
117-125): lowercase the symbol; if it is tracked, drop it from the active
set and, if it has a live connection, close that socket and drop it from
the table.  Result: (new state, whether a socket close was issued). -/
def remove_symbol (st : IngestorState) (symbol : String) :
    IngestorState × Bool :=
  let s := str_lower symbol
  if st.active_symbols.contains s then
    let st1 := { st with active_symbols := st.active_symbols.erase s }
    if (st1.connections.map Prod.fst).contains s then
      ({ st1 with connections := st1.connections.filter (fun c => c.1 ≠ s) }, true)
    else (st1, false)
  else (st, false)

/-- The guard of the outer retry loop of `ingest_symbol` is `self.running`
alone; it does not consult the active-symbol set for its own symbol. -/
def ingest_loop_guard (st : IngestorState) (_symbol : String) : Bool :=
  st.running

/-- Backend outcome of one `xgroup_create` call inside
`create_consumer_groups` (redis_client.py lines 34-52):
  - `created`: the group was created;
  - `busygroup`: `ResponseError` whose text contains BUSYGROUP (the group
    pre-exists) — handled with a debug log only;
  - `otherResponseError`: any other `ResponseError` — logged as an error
    and swallowed;
  - `connectionExc`: an exception that is not a `ResponseError` — not
    caught, propagates to the caller. -/
inductive XGroupOutcome where
  | created : XGroupOutcome
  | busygroup : XGroupOutcome
  | otherResponseError : XGroupOutcome
  | connectionExc : XGroupOutcome
deriving DecidableEq

/-- `create_consumer_groups` (redis_client.py lines 34-52) over the list of
per-group backend outcomes, in loop order.  Result: (how the call returns,
how many error-level log lines were written). -/
def create_consumer_groups : List XGroupOutcome → PyResult Unit × Nat
  | [] => (.ok (), 0)
  | r :: rest =>
      match r with
      | .connectionExc => (.exc, 0)
      | .otherResponseError =>
          let res := create_consumer_groups rest
          (res.1, res.2 + 1)
      | .created => create_consumer_groups rest
      | .busygroup => create_consumer_groups rest

/-- Concrete trade frame used by several witnesses: a BTCUSDT trade at
price 50000.0, size 1.0, exchange timestamp 1700000000000 ms. -/
def frame0 : Frame :=
  ⟨some "trade", some "BTCUSDT", some "50000.0", some "1.0", some 1700000000000⟩

/-- The tick `normalize_tick` produces from `frame0`. -/
def tick0 : Tick := ⟨"btcusdt", 1700000000, 50000, 1⟩

/-- A concrete stream entry carrying `tick0`. -/
def smsg0 : StreamMsg := ⟨"1-1", "btcusdt", 1700000000, 50000, 1⟩

/-- Helper: evaluation of the normalizer on the concrete frame `frame0`. -/
theorem normalize_frame0 : normalize_tick frame0 = some tick0 := by
  have h : normalize_tick frame0 =
      some ⟨str_lower "BTCUSDT", (1700000000000 : ℚ) / 1000,
        (digitsVal ['5', '0', '0', '0', '0'] : ℚ) + (digitsVal ['0'] : ℚ) / (10 : ℚ) ^ (1 : ℕ),
        (digitsVal ['1'] : ℚ) + (digitsVal ['0'] : ℚ) / (10 : ℚ) ^ (1 : ℕ)⟩ := rfl
  have h1 : digitsVal ['5', '0', '0', '0', '0'] = 50000 := by decide
  have h2 : digitsVal ['0'] = 0 := by decide
  have h3 : digitsVal ['1'] = 1 := by decide
  have hl : str_lower "BTCUSDT" = "btcusdt" := by decide
  rw [h, h1, h2, h3, hl]
  simp only [tick0, Option.some.injEq, Tick.mk.injEq]
  norm_num

/-- Helper: `bulk_insert_ticks` returns normally in every case — its
`try/except` swallows the execute failure (database.py lines 142-145), so
the caller can never observe an exception from it. -/
theorem bulk_insert_returns_normally (dbOk : Bool) (ticks : List Tick) :
    (bulk_insert_ticks dbOk ticks).1 = PyResult.ok () := by
  unfold bulk_insert_ticks
  by_cases h : ticks.isEmpty <;> by_cases h2 : dbOk <;> simp [h, h2]

/-- Helper: since the insert call always returns normally, a flush of a
non-empty buffer always takes the success path of `flush_buffer`:
counters bumped, `last_flush` set, buffer cleared. -/
theorem flush_buffer_success (dbOk : Bool) (now : ℚ) (st : BPState)
    (h : st.buffer ≠ []) :
    (flush_buffer dbOk now st).1 =
      { st with
        buffer := [],
        batches_processed := st.batches_processed + 1,
        ticks_inserted := st.ticks_inserted + st.buffer.length,
        last_flush := now } := by
  unfold flush_buffer
  rw [bulk_insert_returns_normally]
  unfold flush_buffer_core
  simp [List.isEmpty_iff, h]

/-- C1: the code diverges from the claim.  `flush_buffer` does contain a
handler that re-buffers the taken ticks and bumps the error counter when
the insert call raises (third conjunct, on `flush_buffer_core`), but
`bulk_insert_ticks` catches the database failure itself and returns
normally (first conjunct), so on a failed bulk insert the composed flush
still bumps `batches_processed` and `ticks_inserted`, sets `last_flush`,
leaves the error counter at 0 and discards the ticks: second conjunct,
evaluated at a one-tick buffer with the database failing (`dbOk = false`,
no rows inserted). -/
theorem C1_flush_failure_counts_success :
    (∀ (dbOk : Bool) (ticks : List Tick),
      (bulk_insert_ticks dbOk ticks).1 = PyResult.ok ()) ∧
    flush_buffer false 7 ⟨[tick0], true, 0, 0, 0, 0⟩ =
      (⟨[], true, 1, 1, 0, 7⟩, []) ∧
    flush_buffer_core ⟨[tick0], true, 0, 0, 0, 0⟩ 7 PyResult.exc =
      ⟨[tick0], true, 0, 0, 1, 0⟩ := by
  exact ⟨bulk_insert_returns_normally, by decide, by decide⟩

/-- C2 counterexample: a trade frame is normalized and forwarded, the
Redis append fails (`pubOk = false`): the failure is logged and the tick is
lost, but the error counter stays 0 (the claim says the failure is counted
in an error counter) and `ticks_published` is still incremented. -/
theorem C2_publish_failure_not_counted :
    (process_message ⟨0, 0, 0⟩ (.frame frame0) false).stats.errors = 0 ∧
    (process_message ⟨0, 0, 0⟩ (.frame frame0) false).appended = none ∧
    (process_message ⟨0, 0, 0⟩ (.frame frame0) false).publishFailureLogged = true ∧
    (process_message ⟨0, 0, 0⟩ (.frame frame0) false).stats.ticks_published = 1 ∧
    (process_message ⟨0, 0, 0⟩ (.frame frame0) false).forwarded = some tick0 := by
  have he : frame0.e = some "trade" := rfl
  have hp : process_message ⟨0, 0, 0⟩ (.frame frame0) false =
      ⟨⟨1, 1, 0⟩, some tick0, none, true⟩ := by
    simp [process_message, he, normalize_frame0, publish_tick]
  rw [hp]
  exact ⟨rfl, rfl, rfl, rfl, rfl⟩

/-- C2 (amended): every successfully normalized tick is forwarded to
`publish_tick`; when the append fails the failure is logged and the tick is
lost (nothing is appended), ingestion continues with subsequent messages,
but no error counter is incremented and `ticks_published` is incremented
regardless of the outcome. -/
theorem C2_amended_publish_failure_logged_only :
    (∀ (stats : IngestStats) (f : Frame) (t : Tick) (pubOk : Bool),
      f.e = some "trade" → normalize_tick f = some t →
      process_message stats (.frame f) pubOk =
        ⟨{ stats with
            ticks_received := stats.ticks_received + 1,
            ticks_published := stats.ticks_published + 1 },
          some t, if pubOk then some t else none, !pubOk⟩) ∧
    (∀ (stats : IngestStats) (m : Msg) (p : Bool) (rest : List (Msg × Bool)),
      run_messages stats ((m, p) :: rest) =
        run_messages (process_message stats m p).stats rest) := by
  constructor
  · intro stats f t pubOk he hn
    cases pubOk <;> simp [process_message, he, hn, publish_tick]
  · intro stats m p rest
    rfl

/-- C2 witness: the amended theorem applied to a concrete trade frame with
the append failing. -/
theorem C2_amended_witness :
    process_message ⟨0, 0, 0⟩ (.frame frame0) false =
      ⟨⟨1, 1, 0⟩, some tick0, none, true⟩ := by
  simpa using
    C2_amended_publish_failure_logged_only.1 ⟨0, 0, 0⟩ frame0 tick0 false
      rfl normalize_frame0

/-- C3: in every consume-loop iteration that returns a non-empty batch,
the event trace is exactly append-to-buffer, then acknowledge, then — only
when the buffer has reached `BATCH_SIZE` (default 500) — a flush call.  In
particular the acknowledgment precedes the flush (and hence the bulk
insert of those entries, which only ever happens inside a later flush
call). -/
theorem C3_ack_precedes_flush (st : BPState) (msgs : List StreamMsg)
    (dbOk : Bool) (now : ℚ) (h : msgs ≠ []) :
    (consume_iter st (PyResult.ok msgs) dbOk now).2 =
      [BPEvent.append (msgs.map stream_msg_tick), BPEvent.ack (msgs.map StreamMsg.id)]
        ++ (if BATCH_SIZE ≤ st.buffer.length + msgs.length then [BPEvent.flushCall] else [])
    ∧ BATCH_SIZE = 500 := by
  refine ⟨?_, rfl⟩
  have hne : (msgs.map stream_msg_tick).isEmpty = false := by
    simp [List.isEmpty_iff, h]
  simp only [consume_iter, consume_ticks, hne, Bool.false_eq_true, if_false,
    List.length_append, List.length_map]
  by_cases hb : BATCH_SIZE ≤ st.buffer.length + msgs.length
  · simp [hb]
  · simp [hb]

/-- C3 witness: one message arriving into an empty buffer — appended, then
acknowledged, no flush (1 < 500). -/
theorem C3_ack_precedes_flush_witness :
    (consume_iter ⟨[], true, 0, 0, 0, 0⟩ (PyResult.ok [smsg0]) true 2).2 =
      [BPEvent.append [stream_msg_tick smsg0], BPEvent.ack ["1-1"]] := by
  have h := C3_ack_precedes_flush ⟨[], true, 0, 0, 0, 0⟩ [smsg0] true 2 (by decide)
  simpa [smsg0] using h.1

/-- C4 counterexample: with the 1.0 s timeout, timer wakeups at the integer
instants, a consume-triggered flush at time 1.01 and a single entry
arriving at time 1.02, the wakeups at 1 and 2 do not satisfy the flush-loop
condition and the first firing wakeup is 3: the entry waits
3 - 1.02 = 1.98 s, which exceeds timeout + epsilon for every epsilon up to
0.48 s.  The claimed bound of timeout plus a small epsilon is false; the
sharp bound is twice the timeout. -/
theorem C4_timer_flush_delay_counterexample :
    (101 : ℚ) / 100 ≤ 51 / 50 ∧
    ¬ timer_fires_at (51 / 50) (101 / 100) 1 ∧
    ¬ timer_fires_at (51 / 50) (101 / 100) 2 ∧
    timer_fires_at (51 / 50) (101 / 100) 3 ∧
    first_timer_flush (51 / 50) (101 / 100) = 3 ∧
    (3 : ℚ) - 51 / 50 = 99 / 50 ∧
    ¬ ((99 : ℚ) / 50 ≤ BATCH_TIMEOUT_SECONDS + 1 / 2) := by
  have c1 : ⌈(51 : ℚ) / 50⌉₊ = 2 := by
    rw [Nat.ceil_eq_iff (by norm_num)]
    norm_num
  have c2 : ⌈(101 : ℚ) / 100 + BATCH_TIMEOUT_SECONDS⌉₊ = 3 := by
    rw [Nat.ceil_eq_iff (by norm_num)]
    norm_num [BATCH_TIMEOUT_SECONDS]
  refine ⟨by norm_num, ?_, ?_, ?_, ?_, by norm_num, by norm_num [BATCH_TIMEOUT_SECONDS]⟩
  · norm_num [timer_fires_at, BATCH_TIMEOUT_SECONDS]
  · norm_num [timer_fires_at, BATCH_TIMEOUT_SECONDS]
  · constructor <;> norm_num [BATCH_TIMEOUT_SECONDS]
  · unfold first_timer_flush
    rw [c1, c2]
    decide

/-- C4 (amended): dual-trigger behaviour.  Part (a), size trigger: in the
atomic consume-iteration model, a batch that brings the buffer to
`BATCH_SIZE` makes that same iteration issue the flush; the buffer is then
empty, so the flush-timer condition is false at every later wakeup until
new data arrives — the consume-loop flush precedes any timer firing.
Part (b), time trigger: for a single entry arriving at `arrival` with the
last flush at `lf ≤ arrival` and timer wakeups at the integer instants,
`first_timer_flush` is the first wakeup whose flush condition holds
(condition true there, false at every earlier wakeup), and it lies within
TWICE the timeout after the arrival — not within timeout + epsilon, which
the counterexample refutes. -/
theorem C4_amended_dual_trigger :
    (∀ (st : BPState) (msgs : List StreamMsg) (dbOk : Bool) (now : ℚ),
      msgs ≠ [] → BATCH_SIZE ≤ st.buffer.length + msgs.length →
      BPEvent.flushCall ∈ (consume_iter st (PyResult.ok msgs) dbOk now).2 ∧
      (consume_iter st (PyResult.ok msgs) dbOk now).1.buffer = [] ∧
      ∀ wake : ℚ,
        flush_loop_fires (consume_iter st (PyResult.ok msgs) dbOk now).1 wake = false) ∧
    (∀ arrival lf : ℚ, 0 ≤ arrival → 0 ≤ lf → lf ≤ arrival →
      timer_fires_at arrival lf (first_timer_flush arrival lf) ∧
      (∀ k : ℕ, k < first_timer_flush arrival lf → ¬ timer_fires_at arrival lf k) ∧
      (first_timer_flush arrival lf : ℚ) - arrival < 2 * BATCH_TIMEOUT_SECONDS) := by
  constructor
  · intro st msgs dbOk now hne hlen
    have hmap : (msgs.map stream_msg_tick).isEmpty = false := by
      simp [List.isEmpty_iff, hne]
    have hbuf : st.buffer ++ msgs.map stream_msg_tick ≠ [] := by
      simp [hne]
    have hc : consume_iter st (PyResult.ok msgs) dbOk now =
        ((flush_buffer dbOk now
            { st with buffer := st.buffer ++ msgs.map stream_msg_tick }).1,
          [BPEvent.append (msgs.map stream_msg_tick),
            BPEvent.ack (msgs.map StreamMsg.id), BPEvent.flushCall]) := by
      simp only [consume_iter, consume_ticks, hmap, Bool.false_eq_true, if_false]
      rw [if_pos]
      simpa [List.length_append, List.length_map] using hlen
    rw [hc]
    refine ⟨by simp, ?_, ?_⟩
    · rw [flush_buffer_success _ _ _ hbuf]
    · intro wake
      rw [flush_buffer_success _ _ _ hbuf]
      simp [flush_loop_fires]
  · intro arrival lf ha hlf hle
    simp only [timer_fires_at, first_timer_flush, BATCH_TIMEOUT_SECONDS] at *
    have b1 : arrival ≤ (⌈arrival⌉₊ : ℚ) := Nat.le_ceil arrival
    have b2 : lf + 1 ≤ (⌈lf + 1⌉₊ : ℚ) := Nat.le_ceil (lf + 1)
    have d1 : (⌈arrival⌉₊ : ℚ) < arrival + 1 := Nat.ceil_lt_add_one ha
    have d2 : (⌈lf + 1⌉₊ : ℚ) < (lf + 1) + 1 :=
      Nat.ceil_lt_add_one (by linarith)
    refine ⟨⟨?_, ?_⟩, ?_, ?_⟩
    · calc arrival ≤ (⌈arrival⌉₊ : ℚ) := b1
        _ ≤ ((max ⌈arrival⌉₊ ⌈lf + 1⌉₊ : ℕ) : ℚ) :=
            Nat.cast_le.mpr (le_max_left _ _)
    · calc lf + 1 ≤ (⌈lf + 1⌉₊ : ℚ) := b2
        _ ≤ ((max ⌈arrival⌉₊ ⌈lf + 1⌉₊ : ℕ) : ℚ) :=
            Nat.cast_le.mpr (le_max_right _ _)
    · intro k hk
      rcases lt_max_iff.mp hk with hk1 | hk2
      · have : (k : ℚ) < arrival := Nat.lt_ceil.mp hk1
        intro hcontra
        linarith [hcontra.1]
      · have : (k : ℚ) < lf + 1 := Nat.lt_ceil.mp hk2
        intro hcontra
        linarith [hcontra.2]
    · push_cast [Nat.cast_max]
      rw [sub_lt_iff_lt_add]
      apply max_lt
      · linarith
      · linarith

/-- Concrete states for the C4 witness: a buffer of 400 ticks and a read
of 100 stream entries, reaching the 500 threshold exactly. -/
def bp400 : BPState := ⟨List.replicate 400 tick0, true, 0, 0, 0, 0⟩

/-- One hundred stream entries arriving in a single read. -/
def msgs100 : List StreamMsg := List.replicate 100 smsg0

/-- C4 witness: the amended theorem applied to the concrete 400 + 100
buffer state and to an entry arriving at time 0 with the last flush at
time 0. -/
theorem C4_amended_dual_trigger_witness :
    BPEvent.flushCall ∈ (consume_iter bp400 (PyResult.ok msgs100) true 2).2 ∧
    (consume_iter bp400 (PyResult.ok msgs100) true 2).1.buffer = [] ∧
    timer_fires_at 0 0 (first_timer_flush 0 0) ∧
    (first_timer_flush 0 0 : ℚ) - 0 < 2 * BATCH_TIMEOUT_SECONDS := by
  obtain ⟨ha, hb⟩ := C4_amended_dual_trigger
  have hlen : BATCH_SIZE ≤ bp400.buffer.length + msgs100.length := by
    have e1 : bp400.buffer.length = 400 := by
      rw [show bp400.buffer = List.replicate 400 tick0 from rfl, List.length_replicate]
    have e2 : msgs100.length = 100 := by
      rw [show msgs100 = List.replicate 100 smsg0 from rfl, List.length_replicate]
    rw [e1, e2]
    decide
  obtain ⟨h1, h2, _⟩ := ha bp400 msgs100 true 2 (by decide) hlen
  obtain ⟨g1, _, g3⟩ := hb 0 0 le_rfl le_rfl le_rfl
  exact ⟨h1, h2, g1, g3⟩

/-- C5 counterexample: a connection close detected during receive leads to
an immediate retry — the delay before the next connection attempt is 0,
not the fixed 5-second backoff the claim states (and the error counter is
not incremented either). -/
theorem C5_no_backoff_on_connection_closed :
    attempt_step ⟨0, 0, 0⟩ AttemptOutcome.closedDuringRecv = (⟨0, 0, 0⟩, 0) ∧
    (0 : ℚ) ≠ RECONNECT_BACKOFF_SECONDS := by
  exact ⟨rfl, by norm_num [RECONNECT_BACKOFF_SECONDS]⟩

/-- C5 (amended): on an error raised while connecting or from inside the
connection context, the connector increments its error counter and waits
the fixed 5-second backoff before retrying; on a connection close detected
during receive it retries immediately, with no backoff and no error count.
The retry loop has no cap: a script of n attempt outcomes is always
followed through all n reconnections while the running flag holds. -/
theorem C5_amended_reconnect_loop :
    (∀ (stats : IngestStats) (o : AttemptOutcome),
      attempt_step stats o =
        (if o = AttemptOutcome.closedDuringRecv then stats
          else { stats with errors := stats.errors + 1 },
          if o = AttemptOutcome.closedDuringRecv then 0
          else RECONNECT_BACKOFF_SECONDS)) ∧
    (∀ (stats : IngestStats) (script : List AttemptOutcome),
      (ingest_run stats script).2.length = script.length) ∧
    RECONNECT_BACKOFF_SECONDS = 5 := by
  refine ⟨?_, ?_, rfl⟩
  · intro stats o
    cases o <;> simp [attempt_step]
  · intro stats script
    induction script generalizing stats with
    | nil => rfl
    | cons o rest ih => simp [ingest_run, ih]

/-- Concrete ingestor state for the C6 evaluation: two tracked symbols,
both connected, running. -/
def ist0 : IngestorState :=
  ⟨["btcusdt", "ethusdt"], [("btcusdt", 0), ("ethusdt", 1)], true⟩

/-- C6: evaluation at the failing input.  `remove_symbol` does remove the
symbol from the active set and the connection table, closes its socket and
leaves the other connector untouched (first conjunct) — but the guard of
the removed connector task is `self.running` alone and stays true (second
conjunct), and the close it observes during receive leads to an immediate
reconnection attempt (third conjunct): the connector reconnects and keeps
forwarding ticks, contradicting the claim that no further ticks for the
symbol are forwarded. -/
theorem C6_removed_symbol_connector_keeps_running :
    remove_symbol ist0 "BTCUSDT" =
      (⟨["ethusdt"], [("ethusdt", 1)], true⟩, true) ∧
    ingest_loop_guard (remove_symbol ist0 "BTCUSDT").1 "btcusdt" = true ∧
    attempt_step ⟨9, 9, 2⟩ AttemptOutcome.closedDuringRecv = (⟨9, 9, 2⟩, 0) := by
  decide

/-- Helper: evaluation of the float parser on the price string of `frame0`. -/
theorem parse_price0 : parseDecimal "50000.0" = some 50000 := by
  have h : parseDecimal "50000.0" =
      some ((digitsVal ['5', '0', '0', '0', '0'] : ℚ) +
        (digitsVal ['0'] : ℚ) / (10 : ℚ) ^ (1 : ℕ)) := rfl
  have h1 : digitsVal ['5', '0', '0', '0', '0'] = 50000 := by decide
  have h2 : digitsVal ['0'] = 0 := by decide
  rw [h, h1, h2]
  norm_num

/-- Helper: evaluation of the float parser on the size string of `frame0`. -/
theorem parse_size0 : parseDecimal "1.0" = some 1 := by
  have h : parseDecimal "1.0" =
      some ((digitsVal ['1'] : ℚ) + (digitsVal ['0'] : ℚ) / (10 : ℚ) ^ (1 : ℕ)) := rfl
  have h1 : digitsVal ['1'] = 1 := by decide
  have h2 : digitsVal ['0'] = 0 := by decide
  rw [h, h1, h2]
  norm_num

/-- C7: the normalizer and the error paths of `process_message`.
(1) A frame with all fields present and parseable normalizes to the tick
with the lowercased symbol, the exchange timestamp in milliseconds divided
by 1000 as the instant, and the parsed price and size.  (2) A frame whose
event-type field is not the trade event is ignored: state unchanged,
nothing forwarded.  (3) A trade frame whose normalization fails is dropped
with the error counter incremented.  (4) An unparseable message is dropped
with the error counter incremented.  In all cases `process_message`
returns a plain value — no exception propagates. -/
theorem C7_normalize_and_error_paths :
    (∀ (f : Frame) (s p q : String) (T : Int) (pv qv : ℚ),
      f.s = some s → f.p = some p → f.q = some q → f.T = some T →
      parseDecimal p = some pv → parseDecimal q = some qv →
      normalize_tick f = some ⟨str_lower s, (T : ℚ) / 1000, pv, qv⟩) ∧
    (∀ (stats : IngestStats) (f : Frame) (pubOk : Bool),
      f.e ≠ some "trade" →
      process_message stats (.frame f) pubOk = ⟨stats, none, none, false⟩) ∧
    (∀ (stats : IngestStats) (f : Frame) (pubOk : Bool),
      f.e = some "trade" → normalize_tick f = none →
      process_message stats (.frame f) pubOk =
        ⟨{ stats with errors := stats.errors + 1 }, none, none, false⟩) ∧
    (∀ (stats : IngestStats) (pubOk : Bool),
      process_message stats .malformed pubOk =
        ⟨{ stats with errors := stats.errors + 1 }, none, none, false⟩) := by
  refine ⟨?_, ?_, ?_, ?_⟩
  · intro f s p q T pv qv hs hp hq hT hpv hqv
    simp [normalize_tick, hs, hp, hq, hT, hpv, hqv]
  · intro stats f pubOk he
    simp [process_message, he]
  · intro stats f pubOk he hn
    simp [process_message, he, hn]
  · intro stats pubOk
    rfl

/-- C7 witness: the four paths at concrete inputs — `frame0` normalizes to
`tick0`; a depth frame is ignored; a trade frame with missing fields is
dropped and counted; a malformed message is dropped and counted. -/
theorem C7_normalize_and_error_paths_witness :
    normalize_tick frame0 = some tick0 ∧
    process_message ⟨0, 0, 0⟩ (.frame ⟨some "depth", none, none, none, none⟩) true =
      ⟨⟨0, 0, 0⟩, none, none, false⟩ ∧
    process_message ⟨0, 0, 0⟩ (.frame ⟨some "trade", none, none, none, none⟩) true =
      ⟨⟨0, 0, 1⟩, none, none, false⟩ ∧
    process_message ⟨0, 0, 0⟩ .malformed true = ⟨⟨0, 0, 1⟩, none, none, false⟩ := by
  obtain ⟨h1, h2, h3, h4⟩ := C7_normalize_and_error_paths
  refine ⟨?_, ?_, ?_, ?_⟩
  · have h := h1 frame0 "BTCUSDT" "50000.0" "1.0" 1700000000000 50000 1
      rfl rfl rfl rfl parse_price0 parse_size0
    have hl : str_lower "BTCUSDT" = "btcusdt" := by decide
    have ht : ((1700000000000 : ℤ) : ℚ) / 1000 = 1700000000 := by norm_num
    rw [h, hl, ht]
    rfl
  · simpa using h2 ⟨0, 0, 0⟩ ⟨some "depth", none, none, none, none⟩ true (by decide)
  · simpa using h3 ⟨0, 0, 0⟩ ⟨some "trade", none, none, none, none⟩ true rfl rfl
  · simpa using h4 ⟨0, 0, 0⟩ true

/-- C8: consumer-group creation is idempotent and race-tolerant.  (1) As
long as no call raises a non-ResponseError exception, the function returns
normally — in particular it succeeds whether each group is freshly created
or already exists.  (2) A run in which every group is created or already
exists (the creation race) completes silently: normal return, zero
error-level log lines.  (3) Whatever propagates to the caller can only
come from an unexpected backend exception (a non-ResponseError). -/
theorem C8_ensure_group_idempotent :
    (∀ rs : List XGroupOutcome,
      (∀ r ∈ rs, r ≠ XGroupOutcome.connectionExc) →
      (create_consumer_groups rs).1 = PyResult.ok ()) ∧
    (∀ rs : List XGroupOutcome,
      (∀ r ∈ rs, r = XGroupOutcome.created ∨ r = XGroupOutcome.busygroup) →
      create_consumer_groups rs = (PyResult.ok (), 0)) ∧
    (∀ rs : List XGroupOutcome,
      (create_consumer_groups rs).1 = PyResult.exc →
      XGroupOutcome.connectionExc ∈ rs) := by
  refine ⟨?_, ?_, ?_⟩
  · intro rs h
    induction rs with
    | nil => rfl
    | cons r rest ih =>
        have hr := h r (by simp)
        have hrest : ∀ x ∈ rest, x ≠ XGroupOutcome.connectionExc :=
          fun x hx => h x (by simp [hx])
        cases r with
        | connectionExc => exact absurd rfl hr
        | otherResponseError => simpa [create_consumer_groups] using ih hrest
        | created => simpa [create_consumer_groups] using ih hrest
        | busygroup => simpa [create_consumer_groups] using ih hrest
  · intro rs h
    induction rs with
    | nil => rfl
    | cons r rest ih =>
        have hr := h r (by simp)
        have hrest : ∀ x ∈ rest,
            x = XGroupOutcome.created ∨ x = XGroupOutcome.busygroup :=
          fun x hx => h x (by simp [hx])
        cases r with
        | connectionExc => simp at hr
        | otherResponseError => simp at hr
        | created => simpa [create_consumer_groups] using ih hrest
        | busygroup => simpa [create_consumer_groups] using ih hrest
  · intro rs
    induction rs with
    | nil => intro h; simp [create_consumer_groups] at h
    | cons r rest ih =>
        intro h
        cases r with
        | connectionExc => exact List.mem_cons_self _ _
        | otherResponseError =>
            exact List.mem_cons_of_mem _ (ih (by simpa [create_consumer_groups] using h))
        | created =>
            exact List.mem_cons_of_mem _ (ih (by simpa [create_consumer_groups] using h))
        | busygroup =>
            exact List.mem_cons_of_mem _ (ih (by simpa [create_consumer_groups] using h))

/-- C8 witness: a run where every group already exists (all BUSYGROUP)
returns normally with no error-level log line, and a mixed
created/pre-existing run returns normally. -/
theorem C8_ensure_group_idempotent_witness :
    (create_consumer_groups
      [XGroupOutcome.busygroup, XGroupOutcome.created, XGroupOutcome.busygroup]).1 =
      PyResult.ok () ∧
    create_consumer_groups
      [XGroupOutcome.busygroup, XGroupOutcome.busygroup, XGroupOutcome.busygroup] =
      (PyResult.ok (), 0) := by
  exact ⟨C8_ensure_group_idempotent.1 _ (by decide),
    C8_ensure_group_idempotent.2.1 _ (by decide)⟩

/-- C9: `stop` clears the running flag — so the guard of each of the three
loops evaluates false at its next check — and invokes one final flush
exactly when the buffer is non-empty; that flush empties the buffer and
accounts the remaining ticks in the insert counters. -/
theorem C9_stop_flushes_and_halts_loops (st : BPState) (dbOk : Bool) (now : ℚ) :
    (stop dbOk now st).1.running = false ∧
    consume_loop_guard (stop dbOk now st).1 = false ∧
    flush_loop_guard (stop dbOk now st).1 = false ∧
    report_loop_guard (stop dbOk now st).1 = false ∧
    ((stop dbOk now st).2 = true ↔ st.buffer ≠ []) ∧
    (st.buffer ≠ [] →
      (stop dbOk now st).1.buffer = [] ∧
      (stop dbOk now st).1.ticks_inserted = st.ticks_inserted + st.buffer.length ∧
      (stop dbOk now st).1.batches_processed = st.batches_processed + 1) := by
  by_cases h : st.buffer = []
  · have e : stop dbOk now st = ({ st with running := false }, false) := by
      simp [stop, List.isEmpty_iff, h]
    rw [e]
    exact ⟨rfl, rfl, rfl, rfl, by simp [h], fun hc => absurd h hc⟩
  · have hne : ({ st with running := false } : BPState).buffer ≠ [] := h
    have e : stop dbOk now st =
        ((flush_buffer dbOk now { st with running := false }).1, true) := by
      simp [stop, List.isEmpty_iff, h]
    rw [e, flush_buffer_success _ _ _ hne]
    exact ⟨rfl, rfl, rfl, rfl, by simp [h], fun hc => ⟨rfl, rfl, rfl⟩⟩

/-- C9 witness: stopping a processor holding one buffered tick — running
flag cleared, final flush invoked, buffer emptied. -/
theorem C9_stop_flushes_and_halts_loops_witness :
    (stop true 3 ⟨[tick0], true, 0, 0, 0, 0⟩).1.running = false ∧
    (stop true 3 ⟨[tick0], true, 0, 0, 0, 0⟩).2 = true ∧
    (stop true 3 ⟨[tick0], true, 0, 0, 0, 0⟩).1.buffer = [] := by
  obtain ⟨h1, _, _, _, h5, h6⟩ :=
    C9_stop_flushes_and_halts_loops ⟨[tick0], true, 0, 0, 0, 0⟩ true 3
  exact ⟨h1, h5.mpr (by decide), (h6 (by decide)).1⟩

/-- C10: `consume_ticks` never raises — every input yields a normal
return; a backend read failure yields exactly the same result as an empty
poll, the pair of empty lists, so the caller cannot tell them apart; and a
consume-loop iteration whose read failed leaves the state untouched — in
particular the error counter is not incremented by a failed stream read. -/
theorem C10_consume_read_failure_indistinguishable :
    (∀ readRes : PyResult (List StreamMsg),
      ∃ p : List Tick × List String, consume_ticks readRes = PyResult.ok p) ∧
    consume_ticks PyResult.exc = PyResult.ok ([], []) ∧
    consume_ticks (PyResult.ok []) = PyResult.ok ([], []) ∧
    (∀ (st : BPState) (dbOk : Bool) (now : ℚ),
      consume_iter st PyResult.exc dbOk now = (st, []) ∧
      (consume_iter st PyResult.exc dbOk now).1.errors = st.errors) := by
  refine ⟨?_, rfl, rfl, ?_⟩
  · intro r
    cases r with
    | ok msgs => exact ⟨_, rfl⟩
    | exc => exact ⟨_, rfl⟩
  · intro st dbOk now
    exact ⟨rfl, rfl⟩

end Trading
